import Mathlib

/-!
Verification of the recommendation/cost engine of the GCP resource portal backend
(`backend/server.js`, staged as `src/unnamed/part_001`).

The JavaScript numbers of the engine are embedded as exact rationals (`ℚ`);
`Math.round`, `Math.ceil` and `Math.floor` are embedded as the corresponding
integer-valued functions on `ℚ`; JS `x || d` on numbers (0 and `undefined` are
falsy) is embedded explicitly.  Monitoring time series are lists of points whose
`value.doubleValue` field may be absent (`Option ℚ`).
-/

namespace Portal

/-- JS `x || d` for a numeric `x`: `0` is falsy and is replaced by the default. -/
def jsOr (x d : ℚ) : ℚ := if x = 0 then d else x

/-- JS `x || d` for a string `x`: the empty string is falsy. -/
def jsOrString (x d : String) : String := if x = "" then d else x

/-- JS `Math.round`: round half toward positive infinity. -/
def jsRound (q : ℚ) : ℤ := ⌊q + 1/2⌋

/-- JS `Math.ceil`. -/
def jsCeil (q : ℚ) : ℤ := ⌈q⌉

/-- One gibibyte (`1024 * 1024 * 1024` bytes), the constant the source writes inline. -/
def gib : ℚ := 1024 * 1024 * 1024

/-- One mebibyte (`1024 * 1024` bytes), the source's `mebibyte` constant. -/
def mib : ℚ := 1024 * 1024

/-- The object returned by `validateAndAdjustCPUMemoryRatio` in the source:
`{ cpu, memory, adjusted, reason }`. -/
structure RatioResult where
  cpu : ℚ
  memory : ℚ
  adjusted : Bool
  reason : Option String
deriving DecidableEq

/-- `validateAndAdjustCPUMemoryRatio(cpuCores, memoryBytes)` (src/unnamed/part_001
lines 159-194): compute `memoryGiB / cpuCores`; below 1, raise memory to
`cpuCores` GiB; above 6.5, raise cpu to `memoryGiB / 6.5`; otherwise unchanged. -/
def validateAndAdjustCPUMemoryRatio (cpuCores memoryBytes : ℚ) : RatioResult :=
  let memoryGiB := memoryBytes / gib
  if memoryGiB / cpuCores < 1 then
    { cpu := cpuCores, memory := cpuCores * gib, adjusted := true,
      reason := some "Memory increased to maintain minimum 1:1 vCPU:GiB ratio" }
  else if memoryGiB / cpuCores > 13/2 then
    { cpu := memoryGiB / (13/2), memory := memoryBytes, adjusted := true,
      reason := some "CPU increased to maintain maximum 1:6.5 vCPU:GiB ratio" }
  else
    { cpu := cpuCores, memory := memoryBytes, adjusted := false, reason := none }

/-- JS property access `ratioValidation.adjustmentReason` in
`generateRecommendationsWithVPA` (src/unnamed/part_001 line 1351): the object
returned by `validateAndAdjustCPUMemoryRatio` has fields `cpu`, `memory`,
`adjusted` and `reason` only, so reading `adjustmentReason` yields `undefined`,
which is falsy. -/
def RatioResult.adjustmentReason (_ : RatioResult) : Option String := none

/-- A monitoring time-series point: `interval.endTime.seconds` and the optional
`value.doubleValue`. -/
structure Point where
  timestamp : ℤ
  value : Option ℚ
deriving DecidableEq

/-- One labeled time series of a monitoring response: its list of points. -/
structure TimeSeries where
  points : List Point
deriving DecidableEq

/-- `calculateCurrentUsage(timeSeries)` (src/unnamed/part_001 lines 1163-1171):
takes the first series and its first point, `latestPoint.value?.doubleValue || 0`;
`0` when the set or the first series' point list is empty. -/
def calculateCurrentUsage (timeSeries : List TimeSeries) : ℚ :=
  match timeSeries with
  | [] => 0
  | latestSeries :: _ =>
    match latestSeries.points with
    | [] => 0
    | latestPoint :: _ => latestPoint.value.getD 0

/-- The VPA recommendation object assembled by `getVPARecommendations`
(src/unnamed/part_001 lines 738-748): total cpu (cores) and memory (bytes) which
may be `null`, per-container maps, availability, and the recorded ratio
adjustments (`ratioAdjustments.total` / `ratioAdjustments.perContainer`). -/
structure VPARecommendations where
  cpu : Option ℚ
  memory : Option ℚ
  cpuPerContainer : List (String × ℚ)
  memoryPerContainer : List (String × ℚ)
  available : Bool
  ratioAdjTotal : Option String
  ratioAdjPerContainer : List (String × String)
deriving DecidableEq

/-- The `resources.requests` object of the metrics endpoint: total cpu request
in millicores, total memory request in bytes. -/
structure Requests where
  cpu : ℚ
  memory : ℚ
deriving DecidableEq

/-- The `resources` object passed to the calculation helpers. -/
structure Resources where
  requests : Requests
deriving DecidableEq

/-- The values collected by `calculateRecommendation`'s forEach loops:
every `point.value.doubleValue` that is truthy (present and nonzero). -/
def seriesValues (timeSeries : List TimeSeries) : List ℚ :=
  (timeSeries.flatMap fun s => s.points).filterMap fun p =>
    match p.value with
    | some v => if v = 0 then none else some v
    | none => none

/-- Insert into a sorted list, ascending: one step of the embedding of
`values.sort((a, b) => a - b)`. -/
def insertVal (x : ℚ) : List ℚ → List ℚ
  | [] => [x]
  | y :: ys => if x ≤ y then x :: y :: ys else y :: insertVal x ys

/-- `values.sort((a, b) => a - b)`: sort ascending. -/
def sortVals (l : List ℚ) : List ℚ := l.foldr insertVal []

/-- `Math.max(...values)` over a nonempty list (callers guard emptiness). -/
def maxVal : List ℚ → ℚ
  | [] => 0
  | x :: xs => xs.foldl max x

/-- `calculateRecommendation(timeSeries, metricType, currentRequest)`
(src/unnamed/part_001 lines 1200-1241): usage-fallback sizing.  P90 of the
collected values times 1.15 (cores→millicores) for cpu, max times 1.2 for
memory, then rounded up to 10m / 16MiB increments with those minimums; with no
series or no values, `currentRequest || (10 or 16MiB)`. -/
def calculateRecommendation (timeSeries : List TimeSeries) (metricType : String)
    (currentRequest : ℚ) : ℚ :=
  if timeSeries.length = 0 then
    jsOr currentRequest (if metricType = "cpu" then 10 else 16 * mib)
  else
    let values := seriesValues timeSeries
    if values.length = 0 then
      jsOr currentRequest (if metricType = "cpu" then 10 else 16 * mib)
    else
      let sorted := sortVals values
      if metricType = "cpu" then
        let p90Index := (⌊(values.length : ℚ) * (9/10)⌋).toNat
        let recommendation := sorted.getD p90Index 0 * (23/20) * 1000
        max 10 ((jsCeil (recommendation / 10) : ℚ) * 10)
      else
        let recommendation := maxVal values * (6/5)
        max (16 * mib) ((jsCeil (recommendation / (16 * mib)) : ℚ) * (16 * mib))

/-- `getRecommendedCPU(vpaRecommendations, cpuTimeSeries, currentRequest)`
(src/unnamed/part_001 lines 1174-1185): VPA cores→millicores rounded up to 10m
(minimum 10m) when available and non-null, else the usage fallback. -/
def getRecommendedCPU (vpa : VPARecommendations) (cpuTimeSeries : List TimeSeries)
    (currentRequest : ℚ) : ℚ :=
  match vpa.available, vpa.cpu with
  | true, some c =>
    let vpaCpuMillicores := jsRound (c * 1000)
    max 10 ((jsCeil ((vpaCpuMillicores : ℚ) / 10) : ℚ) * 10)
  | _, _ => calculateRecommendation cpuTimeSeries "cpu" currentRequest

/-- `getRecommendedMemory(vpaRecommendations, memoryTimeSeries, currentRequest)`
(src/unnamed/part_001 lines 1187-1198): VPA bytes rounded up to 16MiB (minimum
16MiB) when available and non-null, else the usage fallback. -/
def getRecommendedMemory (vpa : VPARecommendations) (memoryTimeSeries : List TimeSeries)
    (currentRequest : ℚ) : ℚ :=
  match vpa.available, vpa.memory with
  | true, some m =>
    let vpaMemoryBytes := jsRound m
    max (16 * mib) ((jsCeil ((vpaMemoryBytes : ℚ) / (16 * mib)) : ℚ) * (16 * mib))
  | _, _ => calculateRecommendation memoryTimeSeries "memory" currentRequest

/-- `calculateEfficiency(cpuSeries, memorySeries, resources)` (src/unnamed/part_001
lines 1244-1257).  Note the defaults: `resources?.requests?.cpu || 100` and
`... || 128MiB` replace a zero request before the positivity guard runs. -/
def calculateEfficiency (cpuSeries memorySeries : List TimeSeries)
    (resources : Resources) : ℤ :=
  let cpuUsage := calculateCurrentUsage cpuSeries
  let memoryUsage := calculateCurrentUsage memorySeries
  let cpuRequest := jsOr resources.requests.cpu 100
  let memoryRequest := jsOr resources.requests.memory (128 * mib)
  let cpuEfficiency := if cpuRequest > 0 then min 100 (cpuUsage * 1000 / cpuRequest * 100) else 100
  let memoryEfficiency := if memoryRequest > 0 then min 100 (memoryUsage / memoryRequest * 100) else 100
  jsRound ((cpuEfficiency + memoryEfficiency) / 2)

/-- `calculateCost(resources, replicas)` (src/unnamed/part_001 lines 1259-1271):
hourly rates 0.031611 per vCPU and 0.004237 per GB, times 24*30, rounded to two
decimals. -/
def calculateCost (resources : Resources) (replicas : ℚ) : ℚ :=
  let cpuCores := jsOr resources.requests.cpu 100 / 1000
  let memoryGB := jsOr resources.requests.memory (128 * mib) / gib
  let hourlyCost := (cpuCores * (31611/1000000) + memoryGB * (4237/1000000)) * replicas
  let monthlyCost := hourlyCost * 24 * 30
  (jsRound (monthlyCost * 100) : ℚ) / 100

/-- `calculatePotentialSavingsWithVPA(vpaRecommendations, resources)`
(src/unnamed/part_001 lines 1274-1300): compare the current cost with the cost
of the raw VPA totals (cpu rounded to whole millicores, memory to whole bytes;
per-resource fallback to the current request when the VPA value is null or 0),
or with the current request itself when VPA is unavailable; both at 1 replica. -/
def calculatePotentialSavingsWithVPA (vpa : VPARecommendations) (resources : Resources) : ℚ :=
  let currentCost := calculateCost resources 1
  let optimizedResources : Resources :=
    if vpa.available then
      { requests :=
        { cpu := match vpa.cpu with
            | some c => if c = 0 then jsOr resources.requests.cpu 100 else (jsRound (c * 1000) : ℚ)
            | none => jsOr resources.requests.cpu 100
          memory := match vpa.memory with
            | some m => if m = 0 then jsOr resources.requests.memory (128 * mib) else (jsRound m : ℚ)
            | none => jsOr resources.requests.memory (128 * mib) } }
    else
      { requests := { cpu := jsOr resources.requests.cpu 100,
                      memory := jsOr resources.requests.memory (128 * mib) } }
  let optimizedCost := calculateCost optimizedResources 1
  let savings := max 0 (currentCost - optimizedCost)
  (jsRound (savings * 100) : ℚ) / 100

/-- The total-recommendation adjustment step of `getVPARecommendations`
(src/unnamed/part_001 lines 704-714): `if (cpuValue && memoryValue)` — both
non-null and non-zero — run `validateAndAdjustCPUMemoryRatio` on the extracted
totals and keep its cpu, memory and reason; otherwise pass the totals through
with no reason. -/
def adjustVPATotals (cpuValue memoryValue : Option ℚ) : Option ℚ × Option ℚ × Option String :=
  match cpuValue, memoryValue with
  | some c, some m =>
    if c ≠ 0 ∧ m ≠ 0 then
      let v := validateAndAdjustCPUMemoryRatio c m
      (some v.cpu, some v.memory, v.reason)
    else (some c, some m, none)
  | c, m => (c, m, none)

/-- One line of the `recommendations` array built by
`generateRecommendationsWithVPA`: the text templates of the source, with each
template's interpolated numbers kept as fields (string formatting of numbers is
not modelled). -/
inductive RecLine where
  | cpuHeader
  | cpuContainer (container : String) (millicores : ℚ)
  | cpuTotal (totalMillicores currentMillicores : ℚ)
  | memHeader
  | memContainer (container : String) (mi : ℚ)
  | memTotal (totalMi currentMi : ℚ)
  | suggestCpu (increase : Bool) (pct : ℚ)
  | suggestMem (increase : Bool) (pct : ℚ)
  | ratioNote
  | vpaNotYet
  | reduceCpu
  | increaseCpu
  | reduceMem
  | increaseMem
  | wellOptimized
  | enableVPA
deriving DecidableEq

/-- `generateRecommendationsWithVPA(vpaRecommendations, cpuSeries, memorySeries,
resources)` (src/unnamed/part_001 lines 1303-1443).  With VPA data: round the
per-container recommendations (cpu up to 10m, memory up to 16MiB), sum them,
run the second ratio-validation pass over the totals (whose result is dropped,
because the source tests the nonexistent `adjustmentReason` property — see
`RatioResult.adjustmentReason`), then emit the cpu and memory sections, the
>20% change suggestions, the ratio note when any recorded adjustment exists,
and the not-yet-available note.  Without VPA data: utilization advisories from
current usage, a well-optimized line when none fire, and the enable-VPA hint. -/
def generateRecommendationsWithVPA (vpa : VPARecommendations)
    (cpuSeries memorySeries : List TimeSeries) (resources : Resources) : List RecLine :=
  if vpa.available then
    let currentCpuRequest := jsOr resources.requests.cpu 100
    let currentMemoryRequest := jsOr resources.requests.memory (128 * mib)
    let hasRatioAdjustments := vpa.ratioAdjTotal.isSome || vpa.ratioAdjPerContainer.length > 0
    let roundedCpuPerContainer := vpa.cpuPerContainer.map fun nc =>
      (nc.1, max 10 ((jsCeil ((jsRound (nc.2 * 1000) : ℚ) / 10) : ℚ) * 10))
    let totalRoundedCpuMillicores := (roundedCpuPerContainer.map Prod.snd).sum
    let roundedMemoryPerContainer := vpa.memoryPerContainer.map fun nm =>
      (nm.1, max (16 * mib) ((jsCeil (nm.2 / (16 * mib)) : ℚ) * (16 * mib)))
    let totalRoundedMemoryBytes := (roundedMemoryPerContainer.map Prod.snd).sum
    let finalTotals :=
      if totalRoundedCpuMillicores > 0 ∧ totalRoundedMemoryBytes > 0 then
        let ratioValidation :=
          validateAndAdjustCPUMemoryRatio (totalRoundedCpuMillicores / 1000) totalRoundedMemoryBytes
        match ratioValidation.adjustmentReason with
        | some _ =>
          (max 10 ((jsCeil ((jsRound (ratioValidation.cpu * 1000) : ℚ) / 10) : ℚ) * 10),
           max (16 * mib) ((jsCeil (ratioValidation.memory / (16 * mib)) : ℚ) * (16 * mib)),
           true)
        | none => (totalRoundedCpuMillicores, totalRoundedMemoryBytes, false)
      else (totalRoundedCpuMillicores, totalRoundedMemoryBytes, false)
    let finalTotalCpuMillicores := finalTotals.1
    let finalTotalMemoryBytes := finalTotals.2.1
    let ratioAdjustmentMade := finalTotals.2.2
    let cpuLines :=
      if roundedCpuPerContainer.length > 0 then
        RecLine.cpuHeader :: roundedCpuPerContainer.map (fun nc => RecLine.cpuContainer nc.1 nc.2)
          ++ [RecLine.cpuTotal finalTotalCpuMillicores currentCpuRequest]
      else []
    let memLines :=
      if roundedMemoryPerContainer.length > 0 then
        RecLine.memHeader ::
          roundedMemoryPerContainer.map (fun nm => RecLine.memContainer nm.1 (jsRound (nm.2 / mib) : ℚ))
          ++ [RecLine.memTotal (jsRound (finalTotalMemoryBytes / mib) : ℚ)
                (jsRound (currentMemoryRequest / mib) : ℚ)]
      else []
    let cpuSuggest :=
      match vpa.cpu with
      | some _ =>
        let cpuDifference := (finalTotalCpuMillicores - currentCpuRequest) / currentCpuRequest * 100
        if |cpuDifference| > 20 then
          [RecLine.suggestCpu (decide (cpuDifference > 0)) (jsRound |cpuDifference| : ℚ)]
        else []
      | none => []
    let memSuggest :=
      match vpa.memory with
      | some _ =>
        let memoryDifference :=
          (finalTotalMemoryBytes - currentMemoryRequest) / currentMemoryRequest * 100
        if |memoryDifference| > 20 then
          [RecLine.suggestMem (decide (memoryDifference > 0)) (jsRound |memoryDifference| : ℚ)]
        else []
      | none => []
    let ratioLines := if hasRatioAdjustments || ratioAdjustmentMade then [RecLine.ratioNote] else []
    let pendingLines :=
      if vpa.cpu = none ∧ vpa.memory = none then [RecLine.vpaNotYet] else []
    cpuLines ++ memLines ++ cpuSuggest ++ memSuggest ++ ratioLines ++ pendingLines
  else
    let cpuUsage := calculateCurrentUsage cpuSeries
    let memoryUsage := calculateCurrentUsage memorySeries
    let cpuRequest := jsOr resources.requests.cpu 100
    let memoryRequest := jsOr resources.requests.memory (128 * mib)
    let cpuUtilization := if cpuRequest > 0 then cpuUsage * 1000 / cpuRequest else 0
    let cpuLines :=
      if cpuUtilization < 3/10 then [RecLine.reduceCpu]
      else if cpuUtilization > 4/5 then [RecLine.increaseCpu]
      else []
    let memoryUtilization := if memoryRequest > 0 then memoryUsage / memoryRequest else 0
    let memLines :=
      if memoryUtilization < 3/10 then [RecLine.reduceMem]
      else if memoryUtilization > 4/5 then [RecLine.increaseMem]
      else []
    let base := cpuLines ++ memLines
    (if base.length = 0 then base ++ [RecLine.wellOptimized] else base) ++ [RecLine.enableVPA]

/-- One entry of the request's `workloads` array (src/unnamed/part_001 line 899
and §6 of the spec): name, namespace, type, declared replicas, optional limits. -/
structure WorkloadInput where
  name : String
  nspace : String
  wtype : String
  replicas : ℚ
  cpuLimit : Option ℚ
  memoryLimit : Option ℚ
deriving DecidableEq

/-- The object returned by `getResourceRequestsFromMonitoring` as consumed by the
metrics endpoint: ratio-validated request totals and per-container maps. -/
structure ResourceRequestsResult where
  cpuRequest : ℚ
  memoryRequest : ℚ
  cpuPerContainer : List (String × ℚ)
  memoryPerContainer : List (String × ℚ)
deriving DecidableEq

/-- Everything the per-workload pipeline of the `/api/metrics` handler fetches
from upstream before the pure processing steps run: replica info, request
totals, usage series and VPA data. -/
structure WorkloadData where
  replicaCount : ℚ
  replicaType : String
  resourceRequests : ResourceRequestsResult
  cpuResponse : List TimeSeries
  memoryResponse : List TimeSeries
  vpa : VPARecommendations
deriving DecidableEq

/-- The `processedMetrics` object pushed for a successfully processed workload
(src/unnamed/part_001 lines 1066-1098). -/
structure ProcessedMetrics where
  name : String
  nspace : String
  wtype : String
  replicas : ℚ
  cpuRequest : ℚ
  memoryRequest : ℚ
  cpuLimit : ℚ
  memoryLimit : ℚ
  cpuUsage : ℚ
  memoryUsage : ℚ
  recommendedCPU : ℚ
  recommendedMemory : ℚ
  efficiency : ℤ
  cost : ℚ
  potentialSavings : ℚ
  status : String
  recommendations : List RecLine
  vpaEnabled : Bool
deriving DecidableEq

/-- The body of the per-workload `try` block of the `/api/metrics` handler
(src/unnamed/part_001 lines 1036-1098), applied to already-fetched upstream
data: assemble `resources` and build `processedMetrics` with the calculation
helpers. -/
def processWorkload (w : WorkloadInput) (d : WorkloadData) : ProcessedMetrics :=
  let resources : Resources :=
    { requests := { cpu := d.resourceRequests.cpuRequest, memory := d.resourceRequests.memoryRequest } }
  { name := w.name
    nspace := w.nspace
    wtype := jsOrString d.replicaType (jsOrString w.wtype "Unknown")
    replicas := d.replicaCount
    cpuRequest := resources.requests.cpu
    memoryRequest := resources.requests.memory
    cpuLimit := w.cpuLimit.getD 0
    memoryLimit := w.memoryLimit.getD 0
    cpuUsage := calculateCurrentUsage d.cpuResponse
    memoryUsage := calculateCurrentUsage d.memoryResponse
    recommendedCPU := getRecommendedCPU d.vpa d.cpuResponse resources.requests.cpu
    recommendedMemory := getRecommendedMemory d.vpa d.memoryResponse resources.requests.memory
    efficiency := calculateEfficiency d.cpuResponse d.memoryResponse resources
    cost := calculateCost resources d.replicaCount
    potentialSavings := calculatePotentialSavingsWithVPA d.vpa resources
    status := "running"
    recommendations := generateRecommendationsWithVPA d.vpa d.cpuResponse d.memoryResponse resources
    vpaEnabled := d.vpa.available }

/-- One entry of the `metricsData` array the `/api/metrics` handler responds
with: either a full `processedMetrics` object, or the error object
`{ name, namespace, type, error, status: 'error' }` pushed by the per-workload
`catch` (src/unnamed/part_001 lines 1102-1112). -/
inductive MetricsItem where
  | ok (m : ProcessedMetrics)
  | err (name nspace wtype error status : String)
deriving DecidableEq

/-- The `for (const workload of workloadsList)` loop of the `/api/metrics`
handler (src/unnamed/part_001 lines 974-1113): each workload's upstream fetches
are abstracted as an `Except` outcome; a success is processed and pushed, an
exception is caught and pushed as the error object. -/
def processBatch (workloadsList : List (WorkloadInput × Except String WorkloadData)) :
    List MetricsItem :=
  workloadsList.foldl
    (fun metricsData wr =>
      match wr with
      | (w, Except.ok d) => metricsData ++ [MetricsItem.ok (processWorkload w d)]
      | (w, Except.error e) =>
        metricsData ++ [MetricsItem.err w.name w.nspace (jsOrString w.wtype "Unknown") e "error"])
    []

/-- Modelled from the spec's words (§4.1, claim C4): "returns the value of the
most recent point across all series in the set, or 0 if empty"; ties broken by
the first point encountered. -/
def latestValueAcrossSeries (timeSeries : List TimeSeries) : ℚ :=
  let best := (timeSeries.flatMap fun s => s.points).foldl
    (fun acc p =>
      match acc with
      | none => some p
      | some q => if p.timestamp > q.timestamp then some p else some q)
    none
  match best with
  | none => 0
  | some p => p.value.getD 0

/-- Modelled from the spec's words (§4.4, claim C5): the efficiency formula in
which "each ratio defaults to 100 if its request is zero". -/
def efficiencySpecFormula (usageCPU requestCPU usageMemory requestMemory : ℚ) : ℤ :=
  let cpuPart := if requestCPU = 0 then 100 else min 100 (usageCPU / requestCPU * 100)
  let memoryPart := if requestMemory = 0 then 100 else min 100 (usageMemory / requestMemory * 100)
  jsRound ((cpuPart + memoryPart) / 2)

/-- Modelled from the claim's words (C6): `max(0, cost(currentRequest) -
cost(recommendedRequest))` at 1 replica, where `recommendedRequest` is the
workload's emitted recommendation (`getRecommendedCPU` / `getRecommendedMemory`). -/
def claimedSavingsFormula (vpa : VPARecommendations)
    (cpuSeries memorySeries : List TimeSeries) (resources : Resources) : ℚ :=
  max 0 (calculateCost resources 1 -
    calculateCost
      { requests :=
        { cpu := getRecommendedCPU vpa cpuSeries resources.requests.cpu
          memory := getRecommendedMemory vpa memorySeries resources.requests.memory } } 1)

/-- Modelled from the amended claim's words (C6): the request pair the savings
computation actually compares against — the raw VPA totals (cpu rounded to
whole millicores, memory to whole bytes, per-resource fallback to the defaulted
current request when null or zero) when VPA is available, the defaulted current
request itself otherwise. -/
def savingsComparisonRequests (vpa : VPARecommendations) (resources : Resources) : Requests :=
  if vpa.available then
    { cpu := match vpa.cpu with
        | some c => if c = 0 then jsOr resources.requests.cpu 100 else (jsRound (c * 1000) : ℚ)
        | none => jsOr resources.requests.cpu 100
      memory := match vpa.memory with
        | some m => if m = 0 then jsOr resources.requests.memory (128 * mib) else (jsRound m : ℚ)
        | none => jsOr resources.requests.memory (128 * mib) }
  else
    { cpu := jsOr resources.requests.cpu 100,
      memory := jsOr resources.requests.memory (128 * mib) }

/-- Modelled from the claim's words (C9): a failed item "carrying only
{name, namespace, error}" — in particular carrying no workload type and no
status marker. -/
def carriesOnlyNameNamespaceError : MetricsItem → Prop
  | MetricsItem.ok _ => False
  | MetricsItem.err _ _ wtype _ status => wtype = "" ∧ status = ""

/-- All `value.doubleValue` fields of a series set are non-negative (absent
values read as 0). -/
def nonnegValues (timeSeries : List TimeSeries) : Prop :=
  ∀ s ∈ timeSeries, ∀ p ∈ s.points, 0 ≤ p.value.getD 0

/-- One response item of the batch loop, as a function of a single workload's
input and upstream outcome. -/
def metricsItemOf : WorkloadInput × Except String WorkloadData → MetricsItem
  | (w, Except.ok d) => MetricsItem.ok (processWorkload w d)
  | (w, Except.error e) =>
    MetricsItem.err w.name w.nspace (jsOrString w.wtype "Unknown") e "error"

/-- The VPA object of the error path / no-data case: unavailable, no totals. -/
def vpaUnavailable : VPARecommendations := ⟨none, none, [], [], false, none, []⟩

/-- A reachable VPA result: one container at 0.015 cores and 0.015 GiB (ratio
exactly 1, so neither the per-container nor the total validation pass of
`getVPARecommendations` records an adjustment). -/
def vpaSmallContainer : VPARecommendations :=
  ⟨some (3/200), some (3 * gib / 200), [("app", 3/200)], [("app", 3 * gib / 200)],
   true, none, []⟩

section Helpers

theorem gib_pos : (0 : ℚ) < gib := by norm_num [gib]

theorem jsCeil_as_floor (q : ℚ) : jsCeil q = -⌊-q⌋ := by
  rw [Int.floor_neg]
  simp [jsCeil]

theorem memory_ne_cpu : ("memory" : String) ≠ "cpu" := by decide

theorem jsRound_nonneg {q : ℚ} (h : 0 ≤ q) : 0 ≤ jsRound q := by
  unfold jsRound
  exact Int.le_floor.mpr (by push_cast; linarith)

theorem jsRound_le {q : ℚ} {n : ℤ} (h : q ≤ n) : jsRound q ≤ n := by
  unfold jsRound
  calc ⌊q + 1/2⌋ ≤ ⌊(n : ℚ) + 1/2⌋ := Int.floor_le_floor (by linarith)
    _ = n + ⌊(1 : ℚ)/2⌋ := Int.floor_int_add n (1/2)
    _ = n := by norm_num

theorem usage_nonneg {ts : List TimeSeries} (h : nonnegValues ts) :
    0 ≤ calculateCurrentUsage ts := by
  cases ts with
  | nil => simp [calculateCurrentUsage]
  | cons s rest =>
    cases hp : s.points with
    | nil => simp [calculateCurrentUsage, hp]
    | cons p ps =>
      have hv := h s (by simp) p (by rw [hp]; simp)
      simpa [calculateCurrentUsage, hp] using hv

theorem ratioResult_cpu_memory (cpuCores memoryBytes : ℚ) (hc : 0 < cpuCores) :
    1 ≤ ((validateAndAdjustCPUMemoryRatio cpuCores memoryBytes).memory / gib) /
        (validateAndAdjustCPUMemoryRatio cpuCores memoryBytes).cpu ∧
    ((validateAndAdjustCPUMemoryRatio cpuCores memoryBytes).memory / gib) /
        (validateAndAdjustCPUMemoryRatio cpuCores memoryBytes).cpu ≤ 13/2 := by
  unfold validateAndAdjustCPUMemoryRatio
  dsimp only
  split_ifs with h1 h2
  · dsimp only
    rw [mul_div_assoc, div_self (ne_of_gt gib_pos), mul_one, div_self (ne_of_gt hc)]
    norm_num
  · dsimp only
    have h3 : (13:ℚ)/2 * cpuCores < memoryBytes / gib := (lt_div_iff₀ hc).mp h2
    have hpos : 0 < memoryBytes / gib := lt_trans (by positivity) h3
    rw [div_div_eq_mul_div, mul_comm, mul_div_assoc, div_self (ne_of_gt hpos), mul_one]
    norm_num
  · dsimp only
    push_neg at h1 h2
    exact ⟨h1, h2⟩

theorem processBatch_aux (l : List (WorkloadInput × Except String WorkloadData))
    (acc : List MetricsItem) :
    List.foldl
      (fun metricsData wr =>
        match wr with
        | (w, Except.ok d) => metricsData ++ [MetricsItem.ok (processWorkload w d)]
        | (w, Except.error e) =>
          metricsData ++ [MetricsItem.err w.name w.nspace (jsOrString w.wtype "Unknown") e "error"])
      acc l = acc ++ l.map metricsItemOf := by
  induction l generalizing acc with
  | nil => simp
  | cons x xs ih =>
    rcases x with ⟨w, r⟩
    cases r <;> simp [ih, metricsItemOf]

theorem processBatch_eq_map (ws : List (WorkloadInput × Except String WorkloadData)) :
    processBatch ws = ws.map metricsItemOf := by
  unfold processBatch
  rw [processBatch_aux ws []]
  exact List.nil_append _

end Helpers

/-- C1: for every input pair with `cpuCores > 0` and `memoryBytes ≥ 0`, the
GiB-per-vCPU value of `validateAndAdjustCPUMemoryRatio`'s output lies in
[1, 6.5], and an input whose value is already in [1, 6.5] is returned
unchanged with `adjusted = false`. -/
theorem ratioValidator_bounds_and_idempotence (cpuCores memoryBytes : ℚ)
    (hc : 0 < cpuCores) (_hm : 0 ≤ memoryBytes) :
    (1 ≤ ((validateAndAdjustCPUMemoryRatio cpuCores memoryBytes).memory / gib) /
        (validateAndAdjustCPUMemoryRatio cpuCores memoryBytes).cpu ∧
     ((validateAndAdjustCPUMemoryRatio cpuCores memoryBytes).memory / gib) /
        (validateAndAdjustCPUMemoryRatio cpuCores memoryBytes).cpu ≤ 13/2) ∧
    (1 ≤ memoryBytes / gib / cpuCores → memoryBytes / gib / cpuCores ≤ 13/2 →
      validateAndAdjustCPUMemoryRatio cpuCores memoryBytes =
        { cpu := cpuCores, memory := memoryBytes, adjusted := false, reason := none }) := by
  refine ⟨ratioResult_cpu_memory cpuCores memoryBytes hc, fun hlo hhi => ?_⟩
  unfold validateAndAdjustCPUMemoryRatio
  dsimp only
  rw [if_neg (not_lt.mpr hlo), if_neg (not_lt.mpr hhi)]

/-- Witness for C1 at cpu = 1 core, memory = 2 GiB (value 2, inside the bounds). -/
theorem ratioValidator_bounds_and_idempotence_witness :
    validateAndAdjustCPUMemoryRatio 1 (2 * gib) =
      { cpu := 1, memory := 2 * gib, adjusted := false, reason := none } :=
  (ratioValidator_bounds_and_idempotence 1 (2 * gib) (by norm_num)
    (by norm_num [gib])).2 (by norm_num [gib]) (by norm_num [gib])

/-- C10: `validateAndAdjustCPUMemoryRatio` never decreases either resource:
an out-of-bound value is always fixed by raising the deficient resource. -/
theorem ratioValidator_never_decreases (cpuCores memoryBytes : ℚ)
    (hc : 0 < cpuCores) (_hm : 0 ≤ memoryBytes) :
    cpuCores ≤ (validateAndAdjustCPUMemoryRatio cpuCores memoryBytes).cpu ∧
    memoryBytes ≤ (validateAndAdjustCPUMemoryRatio cpuCores memoryBytes).memory := by
  unfold validateAndAdjustCPUMemoryRatio
  dsimp only
  split_ifs with h1 h2
  · dsimp only
    refine ⟨le_refl _, ?_⟩
    have h3 : memoryBytes / gib < cpuCores := (div_lt_one hc).mp h1
    exact le_of_lt ((div_lt_iff₀ gib_pos).mp h3)
  · dsimp only
    refine ⟨?_, le_refl _⟩
    have h3 : (13:ℚ)/2 * cpuCores < memoryBytes / gib := (lt_div_iff₀ hc).mp h2
    rw [le_div_iff₀ (by norm_num : (0:ℚ) < 13/2)]
    linarith
  · exact ⟨le_refl _, le_refl _⟩

/-- Witness for C10 at cpu = 1 core, memory = 0 bytes (the memory-raising branch). -/
theorem ratioValidator_never_decreases_witness :
    1 ≤ (validateAndAdjustCPUMemoryRatio 1 0).cpu ∧
    0 ≤ (validateAndAdjustCPUMemoryRatio 1 0).memory :=
  ratioValidator_never_decreases 1 0 (by norm_num) (by norm_num)

/-- C7: `calculatePotentialSavingsWithVPA` is non-negative for every VPA object
and every resources object. -/
theorem potentialSavings_nonneg (vpa : VPARecommendations) (resources : Resources) :
    0 ≤ calculatePotentialSavingsWithVPA vpa resources := by
  unfold calculatePotentialSavingsWithVPA
  dsimp only
  refine div_nonneg ?_ (by norm_num)
  exact_mod_cast jsRound_nonneg (mul_nonneg (le_max_left _ _) (by norm_num))

/-- C8: with non-negative usage values and non-negative requests, the
efficiency score lies in [0, 100]. -/
theorem efficiencyScore_in_range (cpuSeries memorySeries : List TimeSeries)
    (resources : Resources) (hcs : nonnegValues cpuSeries) (hms : nonnegValues memorySeries)
    (_hrc : 0 ≤ resources.requests.cpu) (_hrm : 0 ≤ resources.requests.memory) :
    0 ≤ calculateEfficiency cpuSeries memorySeries resources ∧
    calculateEfficiency cpuSeries memorySeries resources ≤ 100 := by
  unfold calculateEfficiency
  dsimp only
  have hu : 0 ≤ calculateCurrentUsage cpuSeries := usage_nonneg hcs
  have hum : 0 ≤ calculateCurrentUsage memorySeries := usage_nonneg hms
  have hcpu : (0:ℚ) ≤
      (if jsOr resources.requests.cpu 100 > 0 then
        min 100 (calculateCurrentUsage cpuSeries * 1000 / jsOr resources.requests.cpu 100 * 100)
      else 100) ∧
      (if jsOr resources.requests.cpu 100 > 0 then
        min 100 (calculateCurrentUsage cpuSeries * 1000 / jsOr resources.requests.cpu 100 * 100)
      else 100) ≤ 100 := by
    split_ifs with h
    · exact ⟨le_min (by norm_num) (by positivity), min_le_left _ _⟩
    · exact ⟨by norm_num, by norm_num⟩
  have hmem : (0:ℚ) ≤
      (if jsOr resources.requests.memory (128 * mib) > 0 then
        min 100 (calculateCurrentUsage memorySeries / jsOr resources.requests.memory (128 * mib) * 100)
      else 100) ∧
      (if jsOr resources.requests.memory (128 * mib) > 0 then
        min 100 (calculateCurrentUsage memorySeries / jsOr resources.requests.memory (128 * mib) * 100)
      else 100) ≤ 100 := by
    split_ifs with h
    · exact ⟨le_min (by norm_num) (by positivity), min_le_left _ _⟩
    · exact ⟨by norm_num, by norm_num⟩
  constructor
  · exact jsRound_nonneg (by
      have := hcpu.1
      have := hmem.1
      positivity)
  · refine jsRound_le ?_
    push_cast
    linarith [hcpu.2, hmem.2]

/-- Witness for C8: one cpu point of 1 core-second-rate, no memory points,
requests 100m cpu / 0 memory. -/
theorem efficiencyScore_in_range_witness :
    0 ≤ calculateEfficiency [⟨[⟨0, some 1⟩]⟩] [] ⟨⟨100, 0⟩⟩ ∧
    calculateEfficiency [⟨[⟨0, some 1⟩]⟩] [] ⟨⟨100, 0⟩⟩ ≤ 100 :=
  efficiencyScore_in_range [⟨[⟨0, some 1⟩]⟩] [] ⟨⟨100, 0⟩⟩
    (by intro s hs p hp; simp at hs; subst hs; simp at hp; subst hp; norm_num)
    (by intro s hs; simp at hs)
    (by norm_num) (by norm_num)

/-- C5 counterexample: a zero cpu request is not taken as "fully efficient".
With cpu usage 0.05 cores, cpu request 0, memory usage equal to the 128 MiB
memory request, the code scores 75 while the claim's formula (zero request →
ratio 100) gives 100. -/
theorem efficiency_zero_request_not_full :
    calculateEfficiency [⟨[⟨0, some (1/20)⟩]⟩] [⟨[⟨0, some 134217728⟩]⟩] ⟨⟨0, 134217728⟩⟩ = 75 ∧
    efficiencySpecFormula (calculateCurrentUsage [⟨[⟨0, some (1/20)⟩]⟩] * 1000) 0
      (calculateCurrentUsage [⟨[⟨0, some 134217728⟩]⟩]) 134217728 = 100 ∧
    calculateEfficiency [⟨[⟨0, some (1/20)⟩]⟩] [⟨[⟨0, some 134217728⟩]⟩] ⟨⟨0, 134217728⟩⟩ ≠
      efficiencySpecFormula (calculateCurrentUsage [⟨[⟨0, some (1/20)⟩]⟩] * 1000) 0
        (calculateCurrentUsage [⟨[⟨0, some 134217728⟩]⟩]) 134217728 := by
  refine ⟨?_, ?_, ?_⟩ <;>
    norm_num [calculateEfficiency, efficiencySpecFormula, calculateCurrentUsage, jsOr, jsRound, mib]

/-- C5 (amended): the efficiency score equals the claimed formula applied to the
defaulted requests — a zero request is first replaced by 100 millicores cpu /
128 MiB memory and the ratio is computed against the default (cpu usage is in
cores and is converted to millicores), rather than a zero request being taken
directly as 100% efficient. -/
theorem efficiency_equals_defaulted_formula (cpuSeries memorySeries : List TimeSeries)
    (rc rm : ℚ) (hrc : 0 ≤ rc) (hrm : 0 ≤ rm) :
    calculateEfficiency cpuSeries memorySeries ⟨⟨rc, rm⟩⟩ =
      efficiencySpecFormula (calculateCurrentUsage cpuSeries * 1000) (jsOr rc 100)
        (calculateCurrentUsage memorySeries) (jsOr rm (128 * mib)) := by
  unfold calculateEfficiency efficiencySpecFormula
  dsimp only
  have h1 : 0 < jsOr rc 100 := by
    unfold jsOr
    split_ifs with h
    · norm_num
    · exact lt_of_le_of_ne hrc (Ne.symm h)
  have h2 : 0 < jsOr rm (128 * mib) := by
    unfold jsOr
    split_ifs with h
    · norm_num [mib]
    · exact lt_of_le_of_ne hrm (Ne.symm h)
  rw [if_pos h1, if_pos h2, if_neg (ne_of_gt h1), if_neg (ne_of_gt h2)]

/-- Witness for C5's amended statement at cpu request 200m, memory request 128 MiB. -/
theorem efficiency_equals_defaulted_formula_witness :
    calculateEfficiency [⟨[⟨0, some (1/20)⟩]⟩] [] ⟨⟨200, 134217728⟩⟩ =
      efficiencySpecFormula (calculateCurrentUsage [⟨[⟨0, some (1/20)⟩]⟩] * 1000) (jsOr 200 100)
        (calculateCurrentUsage []) (jsOr 134217728 (128 * mib)) :=
  efficiency_equals_defaulted_formula [⟨[⟨0, some (1/20)⟩]⟩] [] 200 134217728
    (by norm_num) (by norm_num)

/-- C4 counterexample: two series, the second holding the more recent point
(timestamp 2, value 7); the most-recent value across all series is 7, but the
code returns 5, the first point of the first series. -/
theorem currentUsage_ignores_later_series :
    calculateCurrentUsage [⟨[⟨1, some 5⟩]⟩, ⟨[⟨2, some 7⟩]⟩] = 5 ∧
    latestValueAcrossSeries [⟨[⟨1, some 5⟩]⟩, ⟨[⟨2, some 7⟩]⟩] = 7 ∧
    calculateCurrentUsage [⟨[⟨1, some 5⟩]⟩, ⟨[⟨2, some 7⟩]⟩] ≠
      latestValueAcrossSeries [⟨[⟨1, some 5⟩]⟩, ⟨[⟨2, some 7⟩]⟩] := by
  refine ⟨?_, ?_, ?_⟩ <;> norm_num [calculateCurrentUsage, latestValueAcrossSeries]

/-- C4 (amended): `calculateCurrentUsage` returns the value of the first point
of the first series (0 when that value is absent), and 0 when the set is empty
or the first series has no points; it does not search the remaining series or
points for a more recent timestamp. -/
theorem currentUsage_first_point_characterization :
    calculateCurrentUsage [] = 0 ∧
    (∀ rest : List TimeSeries, calculateCurrentUsage (⟨[]⟩ :: rest) = 0) ∧
    (∀ (p : Point) (ps : List Point) (rest : List TimeSeries),
      calculateCurrentUsage (⟨p :: ps⟩ :: rest) = p.value.getD 0) :=
  ⟨rfl, fun _ => rfl, fun _ _ _ => rfl⟩

/-- C2 counterexample: with no autoscaler data and no usage series, the emitted
recommendation is the current request pair itself (10m cpu, 1 GiB memory); its
GiB-per-vCPU value is 100, far outside [1, 6.5] — the emitted pair is never
ratio-validated as a pair. -/
theorem emitted_recommendation_violates_bounds :
    (processWorkload ⟨"web", "default", "Deployment", 1, none, none⟩
        ⟨1, "Deployment", ⟨10, 1024 * mib, [], []⟩, [], [], vpaUnavailable⟩).recommendedCPU = 10 ∧
    (processWorkload ⟨"web", "default", "Deployment", 1, none, none⟩
        ⟨1, "Deployment", ⟨10, 1024 * mib, [], []⟩, [], [], vpaUnavailable⟩).recommendedMemory
      = 1024 * mib ∧
    ((processWorkload ⟨"web", "default", "Deployment", 1, none, none⟩
        ⟨1, "Deployment", ⟨10, 1024 * mib, [], []⟩, [], [], vpaUnavailable⟩).recommendedMemory / gib) /
      ((processWorkload ⟨"web", "default", "Deployment", 1, none, none⟩
        ⟨1, "Deployment", ⟨10, 1024 * mib, [], []⟩, [], [], vpaUnavailable⟩).recommendedCPU / 1000)
      = 100 := by
  refine ⟨?_, ?_, ?_⟩ <;>
    norm_num [processWorkload, vpaUnavailable, getRecommendedCPU, getRecommendedMemory,
      calculateRecommendation, jsOr, gib, mib]

/-- C2 (amended): the ratio bound holds where `validateAndAdjustCPUMemoryRatio`
is actually applied — here, the total-recommendation adjustment inside
`getVPARecommendations`, whenever both extracted totals are truthy — but the
emitted (recommendedCPU, recommendedMemory) pair itself is built by independent
per-resource rounding and fallback and is not re-validated. -/
theorem vpaTotals_adjustment_in_bounds (c m : ℚ) (hc : 0 < c) (hm : 0 < m) :
    1 ≤ ((adjustVPATotals (some c) (some m)).2.1.getD 0 / gib) /
        ((adjustVPATotals (some c) (some m)).1.getD 0) ∧
    ((adjustVPATotals (some c) (some m)).2.1.getD 0 / gib) /
        ((adjustVPATotals (some c) (some m)).1.getD 0) ≤ 13/2 := by
  unfold adjustVPATotals
  dsimp only
  rw [if_pos ⟨ne_of_gt hc, ne_of_gt hm⟩]
  dsimp only [Option.getD]
  exact ratioResult_cpu_memory c m hc

/-- Witness for C2's amended statement at totals 1 core / 2 GiB. -/
theorem vpaTotals_adjustment_in_bounds_witness :
    1 ≤ ((adjustVPATotals (some 1) (some (2 * gib))).2.1.getD 0 / gib) /
        ((adjustVPATotals (some 1) (some (2 * gib))).1.getD 0) ∧
    ((adjustVPATotals (some 1) (some (2 * gib))).2.1.getD 0 / gib) /
        ((adjustVPATotals (some 1) (some (2 * gib))).1.getD 0) ≤ 13/2 :=
  vpaTotals_adjustment_in_bounds 1 (2 * gib) (by norm_num) (by norm_num [gib])

/-- C6 counterexample: VPA unavailable, current request 1000m / 1 GiB, usage
series whose fallback recommendation is 120m / 128 MiB.  The claim's formula
(cost difference against the emitted recommendation) gives 22.70, but the code
compares the current request against itself and reports 0. -/
theorem savings_ignores_emitted_recommendation :
    calculatePotentialSavingsWithVPA vpaUnavailable ⟨⟨1000, gib⟩⟩ = 0 ∧
    claimedSavingsFormula vpaUnavailable [⟨[⟨0, some (1/10)⟩]⟩] [⟨[⟨0, some 100000000⟩]⟩]
      ⟨⟨1000, gib⟩⟩ = 227/10 := by
  constructor
  · norm_num [calculatePotentialSavingsWithVPA, vpaUnavailable, calculateCost, jsOr, jsRound,
      gib, mib]
  · norm_num [claimedSavingsFormula, vpaUnavailable, calculateCost, getRecommendedCPU,
      getRecommendedMemory, calculateRecommendation, seriesValues, List.filterMap_cons,
      sortVals, insertVal, maxVal, jsOr, jsCeil_as_floor, jsRound, gib, mib, memory_ne_cpu]

/-- C6 (amended): `potentialSavings` is the two-decimal rounding of
`max(0, cost(currentRequest) - cost(comparison))` at 1 replica, where the
comparison pair is the raw VPA totals (cpu rounded to whole millicores, memory
to whole bytes, per-resource fallback to the defaulted current request when the
VPA value is null or zero) when VPA is available, and the defaulted current
request itself — so the savings is 0 — when it is not; the emitted
usage-fallback recommendation is never consulted. -/
theorem savings_compares_vpa_totals_only (vpa : VPARecommendations) (resources : Resources) :
    calculatePotentialSavingsWithVPA vpa resources =
      (jsRound (max 0 (calculateCost resources 1 -
        calculateCost { requests := savingsComparisonRequests vpa resources } 1) * 100) : ℚ) / 100 := by
  unfold calculatePotentialSavingsWithVPA savingsComparisonRequests
  rcases vpa with ⟨c, m, cpc, mpc, avail, rt, rp⟩
  cases avail <;> dsimp only <;> rfl

/-- C3: the second ratio-validation pass over the summed totals is dead code.
At a reachable VPA result (one container, 0.015 cores / 0.015 GiB), the
rounded totals are 20m cpu and 16 MiB memory, whose GiB-per-vCPU value 0.78 is
out of bounds — `validateAndAdjustCPUMemoryRatio` flags an adjustment — yet the
generated text reports the unadjusted totals (20m, 16 Mi) and emits no
ratio-validation note, because the source tests the nonexistent
`adjustmentReason` property of the validation result instead of `reason`. -/
theorem secondPass_ratio_adjustment_dropped :
    (validateAndAdjustCPUMemoryRatio (20/1000) (16 * mib)).adjusted = true ∧
    generateRecommendationsWithVPA vpaSmallContainer [] [] ⟨⟨20, 16 * mib⟩⟩ =
      [RecLine.cpuHeader, RecLine.cpuContainer "app" 20, RecLine.cpuTotal 20 20,
       RecLine.memHeader, RecLine.memContainer "app" 16, RecLine.memTotal 16 16] ∧
    RecLine.ratioNote ∉ generateRecommendationsWithVPA vpaSmallContainer [] [] ⟨⟨20, 16 * mib⟩⟩ := by
  have hgen : generateRecommendationsWithVPA vpaSmallContainer [] [] ⟨⟨20, 16 * mib⟩⟩ =
      [RecLine.cpuHeader, RecLine.cpuContainer "app" 20, RecLine.cpuTotal 20 20,
       RecLine.memHeader, RecLine.memContainer "app" 16, RecLine.memTotal 16 16] := by
    norm_num [generateRecommendationsWithVPA, vpaSmallContainer, RatioResult.adjustmentReason,
      jsOr, jsCeil_as_floor, jsRound, gib, mib]
    intro h
    exact absurd h (by simp)
  refine ⟨?_, hgen, ?_⟩
  · norm_num [validateAndAdjustCPUMemoryRatio, gib, mib]
  · rw [hgen]
    decide

/-- C9 counterexample: in a batch of five workloads whose third upstream fetch
fails, the third response item is the error object — but it carries the
request-supplied workload type ("Deployment") and a status marker ("error") in
addition to name, namespace and error, so it does not carry *only*
{name, namespace, error}. -/
theorem error_item_carries_type_and_status :
    (processBatch
        [(⟨"w1", "ns", "Deployment", 1, none, none⟩,
          Except.ok ⟨1, "Deployment", ⟨10, 1024 * mib, [], []⟩, [], [], vpaUnavailable⟩),
         (⟨"w2", "ns", "Deployment", 1, none, none⟩,
          Except.ok ⟨1, "Deployment", ⟨10, 1024 * mib, [], []⟩, [], [], vpaUnavailable⟩),
         (⟨"w3", "ns", "Deployment", 1, none, none⟩, Except.error "upstream timeout"),
         (⟨"w4", "ns", "Deployment", 1, none, none⟩,
          Except.ok ⟨1, "Deployment", ⟨10, 1024 * mib, [], []⟩, [], [], vpaUnavailable⟩),
         (⟨"w5", "ns", "Deployment", 1, none, none⟩,
          Except.ok ⟨1, "Deployment", ⟨10, 1024 * mib, [], []⟩, [], [], vpaUnavailable⟩)]).length
      = 5 ∧
    (processBatch
        [(⟨"w1", "ns", "Deployment", 1, none, none⟩,
          Except.ok ⟨1, "Deployment", ⟨10, 1024 * mib, [], []⟩, [], [], vpaUnavailable⟩),
         (⟨"w2", "ns", "Deployment", 1, none, none⟩,
          Except.ok ⟨1, "Deployment", ⟨10, 1024 * mib, [], []⟩, [], [], vpaUnavailable⟩),
         (⟨"w3", "ns", "Deployment", 1, none, none⟩, Except.error "upstream timeout"),
         (⟨"w4", "ns", "Deployment", 1, none, none⟩,
          Except.ok ⟨1, "Deployment", ⟨10, 1024 * mib, [], []⟩, [], [], vpaUnavailable⟩),
         (⟨"w5", "ns", "Deployment", 1, none, none⟩,
          Except.ok ⟨1, "Deployment", ⟨10, 1024 * mib, [], []⟩, [], [], vpaUnavailable⟩)])[2]?
      = some (MetricsItem.err "w3" "ns" "Deployment" "upstream timeout" "error") ∧
    ¬ carriesOnlyNameNamespaceError
        (MetricsItem.err "w3" "ns" "Deployment" "upstream timeout" "error") := by
  refine ⟨?_, ?_, ?_⟩
  · rw [processBatch_eq_map]
    simp
  · rw [processBatch_eq_map]
    simp [metricsItemOf, jsOrString]
  · simp only [carriesOnlyNameNamespaceError]
    decide

/-- C9 (amended): for a batch of N workloads the response holds exactly N items
in request order; the item of a workload whose upstream fetches succeed is its
fully processed metrics, and the item of a workload whose pipeline raises is
the error object `{name, namespace, type, error, status: 'error'}` — each item
depends only on its own workload, so one failure never affects the others. -/
theorem processBatch_preserves_order_and_isolates_failures
    (ws : List (WorkloadInput × Except String WorkloadData)) (i : ℕ) :
    (processBatch ws).length = ws.length ∧
    (processBatch ws)[i]? = (ws[i]?).map metricsItemOf := by
  rw [processBatch_eq_map]
  exact ⟨List.length_map _ _, List.getElem?_map _ _ _⟩

end Portal
